import Mathlib

/-!
Verification of the authentication-classification and dispatch layer of
`auth-handler.go` (minio). The Go code is embedded shallowly: HTTP requests
become a record of the header map, query-parameter presence, method and path;
the external signature and token verifiers become function parameters; the
dispatch middleware becomes a function producing the list of observable
actions (handler invocation, status write, error response) it performs.
-/

set_option maxRecDepth 100000

namespace MinioAuth

/-- A character-list check that `sub` occurs as a contiguous substring of `l`,
mirroring Go `strings.Contains`. -/
def containsList (sub : List Char) : List Char → Bool
  | [] => sub.isEmpty
  | c :: t => List.isPrefixOf sub (c :: t) || containsList sub t

/-- Go `strings.HasPrefix s pre`. -/
def hasPrefixGo (s pre : String) : Bool :=
  List.isPrefixOf pre.toList s.toList

/-- Go `strings.Contains s sub`. -/
def containsGo (s sub : String) : Bool :=
  containsList sub.toList s.toList

/-- The read-only view of an inbound HTTP request that `auth-handler.go`
consults: header lookup (by canonical key, `none` models absence from
`r.Header`), query-parameter presence (`r.URL.Query()[k]` presence), the HTTP
method, the URL path, and the request body (never read by this layer). -/
structure Request where
  headers : String → Option String
  queryHas : String → Bool
  method : String
  urlPath : String
  body : List Nat

/-- Go `r.Header.Get(k)`: first value if the key is present, `""` otherwise. -/
def headerGet (r : Request) (k : String) : String :=
  (r.headers k).getD ""

/-- `signV4Algorithm` constant from the source. -/
def signV4Algorithm : String := "AWS4-HMAC-SHA256"

/-- `jwtAlgorithm` constant from the source. -/
def jwtAlgorithm : String := "Bearer"

/-- `isRequestJWT`: the `Authorization` header is present and starts with
`Bearer`. -/
def isRequestJWT (r : Request) : Bool :=
  (r.headers "Authorization").isSome &&
    hasPrefixGo (headerGet r "Authorization") jwtAlgorithm

/-- `isRequestSignatureV4`: the `Authorization` header is present and starts
with `AWS4-HMAC-SHA256`. -/
def isRequestSignatureV4 (r : Request) : Bool :=
  (r.headers "Authorization").isSome &&
    hasPrefixGo (headerGet r "Authorization") signV4Algorithm

/-- `isRequestPresignedSignatureV4`: the query carries `X-Amz-Credential`. -/
def isRequestPresignedSignatureV4 (r : Request) : Bool :=
  r.queryHas "X-Amz-Credential"

/-- `isRequestPostPolicySignatureV4`: `Content-Type` is present, contains
`multipart/form-data`, and the method is `POST`. -/
def isRequestPostPolicySignatureV4 (r : Request) : Bool :=
  (r.headers "Content-Type").isSome &&
    (containsGo (headerGet r "Content-Type") "multipart/form-data" &&
      (r.method == "POST"))

/-- `isRequestAnonymous`: none of JWT / signature V4 / presigned / post-policy
matches. -/
def isRequestAnonymous (r : Request) : Bool :=
  if isRequestJWT r || isRequestSignatureV4 r ||
      isRequestPresignedSignatureV4 r || isRequestPostPolicySignatureV4 r then
    false
  else
    true

/-- `authType` enumeration from the source. -/
inductive authType where
  | authTypeUnknown
  | authTypeAnonymous
  | authTypePresigned
  | authTypePostPolicy
  | authTypeSigned
  | authTypeJWT
deriving DecidableEq, Repr

/-- `getRequestAuthType`: the ordered if/else-if classifier chain. -/
def getRequestAuthType (r : Request) : authType :=
  if isRequestSignatureV4 r then .authTypeSigned
  else if isRequestPresignedSignatureV4 r then .authTypePresigned
  else if isRequestJWT r then .authTypeJWT
  else if isRequestPostPolicySignatureV4 r then .authTypePostPolicy
  else if !(r.headers "Authorization").isSome then .authTypeAnonymous
  else .authTypeUnknown

/-! ### SHA-256 (Go `crypto/sha256.Sum256`) and hex encoding (Go
`encoding/hex.EncodeToString`), embedded over byte lists so that the constant
payload-hash hint computed by `isSignV4ReqAuthenticated` can be evaluated. -/

/-- 32-bit truncation. -/
def w32 (n : Nat) : Nat := n % 4294967296

/-- 32-bit addition. -/
def add32 (a b : Nat) : Nat := w32 (a + b)

/-- 32-bit right rotation (inputs assumed `< 2^32`). -/
def rotr32 (n x : Nat) : Nat := w32 ((x >>> n) ||| (x <<< (32 - n)))

/-- 32-bit bitwise complement. -/
def not32 (x : Nat) : Nat := 4294967295 ^^^ x

/-- SHA-256 `Ch`. -/
def sha2Ch (x y z : Nat) : Nat := (x &&& y) ^^^ (not32 x &&& z)

/-- SHA-256 `Maj`. -/
def sha2Maj (x y z : Nat) : Nat := (x &&& y) ^^^ (x &&& z) ^^^ (y &&& z)

/-- SHA-256 `Σ0`. -/
def bigSigma0 (x : Nat) : Nat := rotr32 2 x ^^^ rotr32 13 x ^^^ rotr32 22 x

/-- SHA-256 `Σ1`. -/
def bigSigma1 (x : Nat) : Nat := rotr32 6 x ^^^ rotr32 11 x ^^^ rotr32 25 x

/-- SHA-256 `σ0`. -/
def smallSigma0 (x : Nat) : Nat := rotr32 7 x ^^^ rotr32 18 x ^^^ (x >>> 3)

/-- SHA-256 `σ1`. -/
def smallSigma1 (x : Nat) : Nat := rotr32 17 x ^^^ rotr32 19 x ^^^ (x >>> 10)

/-- SHA-256 round constants (the 64 words of FIPS 180-4, in decimal). -/
def sha2K : List Nat :=
  [1116352408, 1899447441, 3049323471, 3921009573, 961987163,
   1508970993, 2453635748, 2870763221, 3624381080, 310598401,
   607225278, 1426881987, 1925078388, 2162078206, 2614888103,
   3248222580, 3835390401, 4022224774, 264347078, 604807628,
   770255983, 1249150122, 1555081692, 1996064986, 2554220882,
   2821834349, 2952996808, 3210313671, 3336571891, 3584528711,
   113926993, 338241895, 666307205, 773529912, 1294757372,
   1396182291, 1695183700, 1986661051, 2177026350, 2456956037,
   2730485921, 2820302411, 3259730800, 3345764771, 3516065817,
   3600352804, 4094571909, 275423344, 430227734, 506948616,
   659060556, 883997877, 958139571, 1322822218, 1537002063,
   1747873779, 1955562222, 2024104815, 2227730452, 2361852424,
   2428436474, 2756734187, 3204031479, 3329325298]

/-- SHA-256 initial hash values (FIPS 180-4, in decimal). -/
def sha2H0 : List Nat :=
  [1779033703, 3144134277, 1013904242, 2773480762,
   1359893119, 2600822924, 528734635, 1541459225]

/-- A `Nat` as 8 big-endian bytes. -/
def beBytes8 (n : Nat) : List Nat :=
  [(n >>> 56) % 256, (n >>> 48) % 256, (n >>> 40) % 256, (n >>> 32) % 256,
   (n >>> 24) % 256, (n >>> 16) % 256, (n >>> 8) % 256, n % 256]

/-- SHA-256 padding: `0x80`, zeros to 56 mod 64, then the bit length as
8 big-endian bytes. -/
def sha2Pad (msg : List Nat) : List Nat :=
  msg ++ [0x80] ++ List.replicate ((119 - (msg.length % 64)) % 64) 0 ++
    beBytes8 (msg.length * 8)

/-- Group bytes into 32-bit big-endian words. -/
def toWords : List Nat → List Nat
  | a :: b :: c :: d :: rest =>
      (a * 16777216 + b * 65536 + c * 256 + d) :: toWords rest
  | _ => []

/-- The next message-schedule word from the ones produced so far. -/
def nextWord (w : List Nat) : Nat :=
  let l := w.length
  add32 (add32 (smallSigma1 (w.getD (l - 2) 0)) (w.getD (l - 7) 0))
        (add32 (smallSigma0 (w.getD (l - 15) 0)) (w.getD (l - 16) 0))

/-- Extend the 16 block words by `n` schedule words. -/
def extendWords : Nat → List Nat → List Nat
  | 0, w => w
  | n + 1, w => extendWords n (w ++ [nextWord w])

/-- One SHA-256 compression round on the state `[a,b,c,d,e,f,g,h]`. -/
def sha2Round (kt wt : Nat) : List Nat → List Nat
  | [a, b, c, d, e, f, g, h] =>
      let t1 := add32 h (add32 (bigSigma1 e) (add32 (sha2Ch e f g) (add32 kt wt)))
      let t2 := add32 (bigSigma0 a) (sha2Maj a b c)
      [add32 t1 t2, a, b, c, add32 d t1, e, f, g]
  | st => st

/-- Compress one 64-byte block into the running hash values. -/
def sha2Compress (hs block : List Nat) : List Nat :=
  let ws := extendWords 48 (toWords block)
  let final := (List.zip sha2K ws).foldl (fun st kw => sha2Round kw.1 kw.2 st) hs
  List.zipWith add32 hs final

/-- Process the padded message 64 bytes at a time; the fuel is the exact
number of blocks, so it never runs out. -/
def sha2Blocks : Nat → List Nat → List Nat → List Nat
  | 0, hs, _ => hs
  | _ + 1, hs, [] => hs
  | n + 1, hs, msg => sha2Blocks n (sha2Compress hs (msg.take 64)) (msg.drop 64)

/-- Hash words as big-endian bytes. -/
def wordsToBytes (ws : List Nat) : List Nat :=
  ws.flatMap fun w => [(w >>> 24) % 256, (w >>> 16) % 256, (w >>> 8) % 256, w % 256]

/-- Go `sha256.Sum256`: the 32-byte SHA-256 digest of a byte list. -/
def sha256Sum256 (msg : List Nat) : List Nat :=
  let padded := sha2Pad msg
  wordsToBytes (sha2Blocks (padded.length / 64) sha2H0 padded)

/-- A nibble as a lowercase hex character. -/
def hexDigit (n : Nat) : Char :=
  "0123456789abcdef".toList.getD n '0'

/-- Go `hex.EncodeToString` on a byte list. -/
def hexEncodeToString (bytes : List Nat) : String :=
  String.mk (bytes.foldr (fun b acc => hexDigit (b / 16) :: hexDigit (b % 16) :: acc) [])

/-- Go `[]byte(s)` for the ASCII strings used here. -/
def strBytes (s : String) : List Nat :=
  s.toList.map Char.toNat

/-- The `dummyPayload` hex string computed on the signed path:
`hex.EncodeToString(sha256.Sum256([]byte("")))`. -/
def dummyPayloadHex : String :=
  hexEncodeToString (sha256Sum256 (strBytes ""))

/-- The closed set of error codes this layer can produce. `None` is success. -/
inductive ErrorCode where
  | None
  | SignatureDoesNotMatch
  | InternalError
  | AccessDenied
  | SignatureVersionNotSupported
deriving DecidableEq, Repr

/-- The external Signature Verifier (`signature4.Sign` after
`SetHTTPRequestToVerify(r)`): each operation may fail (`Except.error`, the
Go `err != nil` case) or report whether the signature matched. -/
structure Sign where
  doesSignatureMatch : Request → String → Except Unit Bool
  doesPresignedSignatureMatch : Request → Except Unit Bool

/-- `isSignV4ReqAuthenticated`: check the V4 signature (with the empty-payload
hash hint) or the presigned signature, mapping verifier outcomes to
`(match, s3Error)` exactly as the source does. -/
def isSignV4ReqAuthenticated (sign : Sign) (r : Request) : Bool × ErrorCode :=
  if isRequestSignatureV4 r then
    match sign.doesSignatureMatch r dummyPayloadHex with
    | .error _ => (false, .InternalError)
    | .ok ok => if !ok then (false, .SignatureDoesNotMatch) else (ok, .None)
  else if isRequestPresignedSignatureV4 r then
    match sign.doesPresignedSignatureMatch r with
    | .error _ => (false, .InternalError)
    | .ok ok => if !ok then (false, .SignatureDoesNotMatch) else (ok, .None)
  else
    (false, .AccessDenied)

/-- The observable actions `authHandler.ServeHTTP` can perform on the response
writer and downstream handler. -/
inductive AuthEvent where
  | callHandler
  | writeHeader (status : Nat)
  | writeErrorResponse (code : ErrorCode) (path : String)
deriving DecidableEq, Repr

/-- `authHandler.ServeHTTP`, with the external Token Verifier
(`isJWTReqAuthenticated`, defined outside this file's source) passed in as a
predicate; the result is the ordered list of observable actions taken for the
request. -/
def serveHTTP (isJWTReqAuthenticated : Request → Bool) (r : Request) :
    List AuthEvent :=
  match getRequestAuthType r with
  | .authTypeAnonymous | .authTypePresigned | .authTypeSigned
  | .authTypePostPolicy =>
      [.callHandler]
  | .authTypeJWT =>
      if !isJWTReqAuthenticated r then
        [.writeHeader 401]
      else
        [.callHandler]
  | .authTypeUnknown =>
      [.writeErrorResponse .SignatureVersionNotSupported r.urlPath]

/-! ### Spec-side classifier (for the refinement claim about resolution
order). These two definitions follow the wording of the spec's §4.1: an
explicit ordered list of (predicate, result) pairs, evaluated in sequence with
first-match-wins semantics and `Unknown` as the fallback. -/

/-- The spec's resolution order: v4-signature-header, presigned-query,
bearer-header, form-policy-body, no-authorization-header. -/
def specOrderedRules : List ((Request → Bool) × authType) :=
  [(isRequestSignatureV4, .authTypeSigned),
   (isRequestPresignedSignatureV4, .authTypePresigned),
   (isRequestJWT, .authTypeJWT),
   (isRequestPostPolicySignatureV4, .authTypePostPolicy),
   (fun r => (r.headers "Authorization").isNone, .authTypeAnonymous)]

/-- First-match-wins evaluation of an ordered rule list, with
`authTypeUnknown` when nothing matches. -/
def specFirstMatch (r : Request) : List ((Request → Bool) × authType) → authType
  | [] => .authTypeUnknown
  | (p, t) :: rest => if p r then t else specFirstMatch r rest

/-! ### Concrete request and verifier fixtures used as witnesses. -/

/-- A request with the given `Authorization` and `Content-Type` headers,
presence of the `X-Amz-Credential` query parameter, and method. -/
def mkReq (auth ct : Option String) (q : Bool) (m : String) : Request :=
  { headers := fun k =>
      if k == "Authorization" then auth
      else if k == "Content-Type" then ct
      else none,
    queryHas := fun k => q && (k == "X-Amz-Credential"),
    method := m,
    urlPath := "/bucket/object",
    body := [] }

/-- A V4-signed request that also carries presigned query noise. -/
def reqSignedAndPresigned : Request :=
  mkReq (some "AWS4-HMAC-SHA256 Credential=AKID/20200101") none true "GET"

/-- A presigned request: no headers, `X-Amz-Credential` in the query. -/
def reqPresignedNoAuth : Request :=
  mkReq none none true "GET"

/-- A bearer-token request. -/
def reqBearer : Request :=
  mkReq (some "Bearer abc.def.ghi") none false "GET"

/-- A POST form upload that also carries an unrecognized `Basic` header. -/
def reqBasicPostForm : Request :=
  mkReq (some "Basic xyz") (some "multipart/form-data; boundary=x") false "POST"

/-- A request with only an unrecognized `Basic` header. -/
def reqBasic : Request :=
  mkReq (some "Basic xyz") none false "GET"

/-- A request with no headers, no query credential. -/
def reqEmpty : Request :=
  mkReq none none false "GET"

/-- A verifier double whose operations always fail internally. -/
def signErr : Sign :=
  { doesSignatureMatch := fun _ _ => .error (),
    doesPresignedSignatureMatch := fun _ => .error () }

/-- A verifier double whose operations always report a match. -/
def signOk : Sign :=
  { doesSignatureMatch := fun _ _ => .ok true,
    doesPresignedSignatureMatch := fun _ => .ok true }

/-- The signed-path mapping of a verifier outcome to `(match, s3Error)`, as a
standalone function for stating which argument the verifier is called with. -/
def signedPathOutcome : Except Unit Bool → Bool × ErrorCode
  | .error _ => (false, .InternalError)
  | .ok ok => if !ok then (false, .SignatureDoesNotMatch) else (ok, .None)

/-! ### Claims -/

/-- Claim C1: `getRequestAuthType` evaluates the predicates in the fixed
order v4-signature-header, presigned-query, bearer-header, form-policy-body,
no-authorization-header with first-match-wins semantics (it equals the
spec-side ordered-rule evaluator); in particular a request with both an
`AWS4-HMAC-SHA256` Authorization header and an `X-Amz-Credential` query
parameter classifies as `Signed`. -/
theorem getRequestAuthType_eq_specFirstMatch :
    (∀ r : Request, getRequestAuthType r = specFirstMatch r specOrderedRules) ∧
    (∀ r : Request, isRequestSignatureV4 r = true →
      r.queryHas "X-Amz-Credential" = true →
      getRequestAuthType r = authType.authTypeSigned) := by
  constructor
  · intro r
    cases h : r.headers "Authorization" <;>
      simp [getRequestAuthType, specFirstMatch, specOrderedRules, h]
  · intro r h1 _
    simp [getRequestAuthType, h1]

/-- Witness for C1 at a request carrying both the signed header and the
presigned query parameter. -/
theorem getRequestAuthType_eq_specFirstMatch_witness :
    getRequestAuthType reqSignedAndPresigned =
      specFirstMatch reqSignedAndPresigned specOrderedRules ∧
    isRequestSignatureV4 reqSignedAndPresigned = true ∧
    reqSignedAndPresigned.queryHas "X-Amz-Credential" = true ∧
    getRequestAuthType reqSignedAndPresigned = authType.authTypeSigned :=
  ⟨getRequestAuthType_eq_specFirstMatch.1 reqSignedAndPresigned,
   by decide, by decide,
   getRequestAuthType_eq_specFirstMatch.2 reqSignedAndPresigned
     (by decide) (by decide)⟩

/-- Counterexample to claim C2 as stated: a request with no `Authorization`
header and no form-policy match, but with an `X-Amz-Credential` query
parameter, classifies as `Presigned`, not `Anonymous`. -/
theorem anonymous_claim_counterexample :
    reqPresignedNoAuth.headers "Authorization" = none ∧
    isRequestPostPolicySignatureV4 reqPresignedNoAuth = false ∧
    getRequestAuthType reqPresignedNoAuth = authType.authTypePresigned ∧
    getRequestAuthType reqPresignedNoAuth ≠ authType.authTypeAnonymous := by
  decide

/-- Claim C2 (amended): a request lacking the `Authorization` header, not
satisfying the form-policy predicate, and also lacking the `X-Amz-Credential`
query parameter classifies as `Anonymous`. -/
theorem getRequestAuthType_anonymous_of_no_auth_no_query :
    ∀ r : Request, r.headers "Authorization" = none →
      isRequestPostPolicySignatureV4 r = false →
      r.queryHas "X-Amz-Credential" = false →
      getRequestAuthType r = authType.authTypeAnonymous := by
  intro r h1 h2 h3
  simp [getRequestAuthType, isRequestSignatureV4, isRequestJWT,
    isRequestPresignedSignatureV4, h1, h2, h3]

/-- Witness for the amended C2 at the empty request. -/
theorem getRequestAuthType_anonymous_of_no_auth_no_query_witness :
    reqEmpty.headers "Authorization" = none ∧
    isRequestPostPolicySignatureV4 reqEmpty = false ∧
    reqEmpty.queryHas "X-Amz-Credential" = false ∧
    getRequestAuthType reqEmpty = authType.authTypeAnonymous :=
  ⟨by decide, by decide, by decide,
   getRequestAuthType_anonymous_of_no_auth_no_query reqEmpty
     (by decide) (by decide) (by decide)⟩

/-- Claim C3: for a `TokenAuth` (JWT) classified request, the downstream
handler is invoked if and only if the Token Verifier returns true; a false
result yields exactly a 401 status write (empty body, no handler call). -/
theorem serveHTTP_token_gate :
    ∀ (v : Request → Bool) (r : Request),
      getRequestAuthType r = authType.authTypeJWT →
      ((AuthEvent.callHandler ∈ serveHTTP v r ↔ v r = true) ∧
        (v r = false → serveHTTP v r = [AuthEvent.writeHeader 401])) := by
  intro v r h
  cases hv : v r <;> simp [serveHTTP, h, hv]

/-- Witness for C3 at a bearer-token request with each verifier verdict. -/
theorem serveHTTP_token_gate_witness :
    getRequestAuthType reqBearer = authType.authTypeJWT ∧
    AuthEvent.callHandler ∈ serveHTTP (fun _ => true) reqBearer ∧
    serveHTTP (fun _ => false) reqBearer = [AuthEvent.writeHeader 401] :=
  ⟨by decide,
   ((serveHTTP_token_gate (fun _ => true) reqBearer (by decide)).1).mpr rfl,
   (serveHTTP_token_gate (fun _ => false) reqBearer (by decide)).2 rfl⟩

/-- Claim C4: for an `Unknown`-classified request the middleware writes only
the `SignatureVersionNotSupported` error response (for any Token Verifier,
which is therefore never consulted) and never invokes the handler. -/
theorem serveHTTP_unknown_rejects :
    ∀ (v : Request → Bool) (r : Request),
      getRequestAuthType r = authType.authTypeUnknown →
      serveHTTP v r =
        [AuthEvent.writeErrorResponse ErrorCode.SignatureVersionNotSupported
          r.urlPath] ∧
      AuthEvent.callHandler ∉ serveHTTP v r := by
  intro v r h
  simp [serveHTTP, h]

/-- Witness for C4 at a `Basic`-authorization request. -/
theorem serveHTTP_unknown_rejects_witness :
    getRequestAuthType reqBasic = authType.authTypeUnknown ∧
    serveHTTP (fun _ => true) reqBasic =
      [AuthEvent.writeErrorResponse ErrorCode.SignatureVersionNotSupported
        reqBasic.urlPath] ∧
    AuthEvent.callHandler ∉ serveHTTP (fun _ => true) reqBasic :=
  ⟨by decide,
   (serveHTTP_unknown_rejects (fun _ => true) reqBasic (by decide)).1,
   (serveHTTP_unknown_rejects (fun _ => true) reqBasic (by decide)).2⟩

/-- Claim C5: for `Anonymous`, `Presigned`, `Signed` and `PostPolicy`
classifications the middleware performs exactly one handler invocation and
nothing else, for any Token Verifier (no verifier is consulted); and across
all classifications the handler is invoked at most once per request. -/
theorem serveHTTP_passthrough_once :
    (∀ (v : Request → Bool) (r : Request),
      (getRequestAuthType r = authType.authTypeAnonymous ∨
       getRequestAuthType r = authType.authTypePresigned ∨
       getRequestAuthType r = authType.authTypeSigned ∨
       getRequestAuthType r = authType.authTypePostPolicy) →
      serveHTTP v r = [AuthEvent.callHandler]) ∧
    (∀ (v : Request → Bool) (r : Request),
      (serveHTTP v r).count AuthEvent.callHandler ≤ 1) := by
  constructor
  · intro v r h
    rcases h with h | h | h | h <;> simp [serveHTTP, h]
  · intro v r
    unfold serveHTTP
    cases getRequestAuthType r <;> try simp [List.count_cons]
    cases hv : v r <;> simp [List.count_cons]

/-- Witness for C5 at a presigned request. -/
theorem serveHTTP_passthrough_once_witness :
    serveHTTP (fun _ => false) reqPresignedNoAuth = [AuthEvent.callHandler] ∧
    (serveHTTP (fun _ => false) reqPresignedNoAuth).count
      AuthEvent.callHandler ≤ 1 :=
  ⟨serveHTTP_passthrough_once.1 (fun _ => false) reqPresignedNoAuth
      (Or.inr (Or.inl (by decide))),
   serveHTTP_passthrough_once.2 (fun _ => false) reqPresignedNoAuth⟩

/-- Claim C6: `isRequestAnonymous` is the negation of the disjunction of the
JWT, signature-V4, presigned and post-policy predicates, and for every
request without an `Authorization` header it agrees with the classifier
returning `Anonymous`. -/
theorem isRequestAnonymous_agrees :
    (∀ r : Request, isRequestAnonymous r =
      !(isRequestJWT r || isRequestSignatureV4 r ||
        isRequestPresignedSignatureV4 r || isRequestPostPolicySignatureV4 r)) ∧
    (∀ r : Request, r.headers "Authorization" = none →
      (isRequestAnonymous r = true ↔
        getRequestAuthType r = authType.authTypeAnonymous)) := by
  constructor
  · intro r
    cases h1 : isRequestJWT r <;> cases h2 : isRequestSignatureV4 r <;>
      cases h3 : isRequestPresignedSignatureV4 r <;>
        cases h4 : isRequestPostPolicySignatureV4 r <;>
          simp [isRequestAnonymous, h1, h2, h3, h4]
  · intro r h
    cases hp : isRequestPresignedSignatureV4 r <;>
      cases hq : isRequestPostPolicySignatureV4 r <;>
        simp [isRequestAnonymous, getRequestAuthType, isRequestJWT,
          isRequestSignatureV4, h, hp, hq]

/-- Witness for C6 at the empty request. -/
theorem isRequestAnonymous_agrees_witness :
    reqEmpty.headers "Authorization" = none ∧
    (isRequestAnonymous reqEmpty = true ↔
      getRequestAuthType reqEmpty = authType.authTypeAnonymous) :=
  ⟨by decide, isRequestAnonymous_agrees.2 reqEmpty (by decide)⟩

/-- Counterexample to claim C7 as stated: a POST multipart request whose
`Authorization` header is `Basic xyz` (neither recognized prefix, no query
credential) classifies as `PostPolicy`, not `Unknown`. -/
theorem unknown_claim_counterexample :
    reqBasicPostForm.headers "Authorization" = some "Basic xyz" ∧
    hasPrefixGo "Basic xyz" signV4Algorithm = false ∧
    hasPrefixGo "Basic xyz" jwtAlgorithm = false ∧
    reqBasicPostForm.queryHas "X-Amz-Credential" = false ∧
    getRequestAuthType reqBasicPostForm = authType.authTypePostPolicy ∧
    getRequestAuthType reqBasicPostForm ≠ authType.authTypeUnknown := by
  decide

/-- Claim C7 (amended): a request with an `Authorization` header of
unrecognized prefix, no `X-Amz-Credential` query parameter, and not
satisfying the form-policy predicate classifies as `Unknown`; and `Unknown`
is never returned when the `Authorization` header is absent. -/
theorem getRequestAuthType_unknown_characterization :
    (∀ (r : Request) (val : String),
      r.headers "Authorization" = some val →
      hasPrefixGo val signV4Algorithm = false →
      hasPrefixGo val jwtAlgorithm = false →
      r.queryHas "X-Amz-Credential" = false →
      isRequestPostPolicySignatureV4 r = false →
      getRequestAuthType r = authType.authTypeUnknown) ∧
    (∀ r : Request, r.headers "Authorization" = none →
      getRequestAuthType r ≠ authType.authTypeUnknown) := by
  constructor
  · intro r val h hv4 hjwt hq hpp
    simp [getRequestAuthType, isRequestSignatureV4, isRequestJWT, headerGet,
      isRequestPresignedSignatureV4, h, hv4, hjwt, hq, hpp]
  · intro r h
    cases hp : isRequestPresignedSignatureV4 r <;>
      cases hq : isRequestPostPolicySignatureV4 r <;>
        simp [getRequestAuthType, isRequestJWT, isRequestSignatureV4,
          h, hp, hq]

/-- Witness for the amended C7 at a bare `Basic` request and the empty
request. -/
theorem getRequestAuthType_unknown_characterization_witness :
    reqBasic.headers "Authorization" = some "Basic xyz" ∧
    hasPrefixGo "Basic xyz" signV4Algorithm = false ∧
    hasPrefixGo "Basic xyz" jwtAlgorithm = false ∧
    reqBasic.queryHas "X-Amz-Credential" = false ∧
    isRequestPostPolicySignatureV4 reqBasic = false ∧
    getRequestAuthType reqBasic = authType.authTypeUnknown ∧
    getRequestAuthType reqEmpty ≠ authType.authTypeUnknown :=
  ⟨by decide, by decide, by decide, by decide, by decide,
   getRequestAuthType_unknown_characterization.1 reqBasic "Basic xyz"
     (by decide) (by decide) (by decide) (by decide) (by decide),
   getRequestAuthType_unknown_characterization.2 reqEmpty (by decide)⟩

/-- Claim C8: every outcome of `isSignV4ReqAuthenticated` pairs
`match = true` exactly with `ErrorCode.None`; on the signed and presigned
paths an internal verifier failure yields `(false, InternalError)` and a
deliberate mismatch yields `(false, SignatureDoesNotMatch)`. -/
theorem isSignV4ReqAuthenticated_outcome_pairing :
    ∀ (sign : Sign) (r : Request),
      ((isSignV4ReqAuthenticated sign r).1 = true ↔
        (isSignV4ReqAuthenticated sign r).2 = ErrorCode.None) ∧
      (isRequestSignatureV4 r = true →
        (∀ e : Unit, sign.doesSignatureMatch r dummyPayloadHex = .error e →
          isSignV4ReqAuthenticated sign r = (false, ErrorCode.InternalError)) ∧
        (sign.doesSignatureMatch r dummyPayloadHex = .ok false →
          isSignV4ReqAuthenticated sign r =
            (false, ErrorCode.SignatureDoesNotMatch))) ∧
      (isRequestSignatureV4 r = false →
        isRequestPresignedSignatureV4 r = true →
        (∀ e : Unit, sign.doesPresignedSignatureMatch r = .error e →
          isSignV4ReqAuthenticated sign r = (false, ErrorCode.InternalError)) ∧
        (sign.doesPresignedSignatureMatch r = .ok false →
          isSignV4ReqAuthenticated sign r =
            (false, ErrorCode.SignatureDoesNotMatch))) := by
  intro sign r
  refine ⟨?_, ?_, ?_⟩
  · cases h1 : isRequestSignatureV4 r
    · cases h2 : isRequestPresignedSignatureV4 r
      · simp [isSignV4ReqAuthenticated, h1, h2]
      · cases hm : sign.doesPresignedSignatureMatch r with
        | error e => simp [isSignV4ReqAuthenticated, h1, h2, hm]
        | ok b => cases b <;> simp [isSignV4ReqAuthenticated, h1, h2, hm]
    · cases hm : sign.doesSignatureMatch r dummyPayloadHex with
      | error e => simp [isSignV4ReqAuthenticated, h1, hm]
      | ok b => cases b <;> simp [isSignV4ReqAuthenticated, h1, hm]
  · intro h1
    constructor
    · intro e he
      simp [isSignV4ReqAuthenticated, h1, he]
    · intro hm
      simp [isSignV4ReqAuthenticated, h1, hm]
  · intro h1 h2
    constructor
    · intro e he
      simp [isSignV4ReqAuthenticated, h1, h2, he]
    · intro hm
      simp [isSignV4ReqAuthenticated, h1, h2, hm]

/-- Witness for C8 at a signed request with a failing and with a matching
verifier double. -/
theorem isSignV4ReqAuthenticated_outcome_pairing_witness :
    isRequestSignatureV4 reqSignedAndPresigned = true ∧
    isSignV4ReqAuthenticated signErr reqSignedAndPresigned =
      (false, ErrorCode.InternalError) ∧
    ((isSignV4ReqAuthenticated signOk reqSignedAndPresigned).1 = true ↔
      (isSignV4ReqAuthenticated signOk reqSignedAndPresigned).2 =
        ErrorCode.None) :=
  ⟨by decide,
   ((isSignV4ReqAuthenticated_outcome_pairing signErr
       reqSignedAndPresigned).2.1 (by decide)).1 () rfl,
   (isSignV4ReqAuthenticated_outcome_pairing signOk reqSignedAndPresigned).1⟩

/-- Claim C9: the payload-hash hint passed to `DoesSignatureMatch` on the
signed path is the hex encoding of the SHA-256 digest of the empty byte
string (`e3b0...b855`), for every request regardless of its body: under
`isRequestSignatureV4` the whole outcome is a function of the verifier's
verdict at exactly that constant hint. -/
theorem signed_path_hashes_empty_payload :
    dummyPayloadHex =
      "e3b0c44298fc1c149afbf4c8996fb92427ae41e4649b934ca495991b7852b855" ∧
    ∀ (sign : Sign) (r : Request),
      isRequestSignatureV4 r = true →
      isSignV4ReqAuthenticated sign r =
        signedPathOutcome (sign.doesSignatureMatch r dummyPayloadHex) := by
  refine ⟨by decide, ?_⟩
  intro sign r h
  cases hm : sign.doesSignatureMatch r dummyPayloadHex <;>
    simp [isSignV4ReqAuthenticated, signedPathOutcome, h, hm]

/-- Witness for C9 at a signed request with the all-match verifier double. -/
theorem signed_path_hashes_empty_payload_witness :
    isRequestSignatureV4 reqSignedAndPresigned = true ∧
    isSignV4ReqAuthenticated signOk reqSignedAndPresigned =
      signedPathOutcome
        (signOk.doesSignatureMatch reqSignedAndPresigned dummyPayloadHex) :=
  ⟨by decide,
   signed_path_hashes_empty_payload.2 signOk reqSignedAndPresigned (by decide)⟩

/-- Claim C10: a request satisfying neither the V4-signature-header predicate
nor the presigned-query predicate gets `(false, AccessDenied)` from
`isSignV4ReqAuthenticated`, for every verifier (so no matching operation is
consulted). -/
theorem isSignV4ReqAuthenticated_access_denied :
    ∀ (sign : Sign) (r : Request),
      isRequestSignatureV4 r = false →
      isRequestPresignedSignatureV4 r = false →
      isSignV4ReqAuthenticated sign r = (false, ErrorCode.AccessDenied) := by
  intro sign r h1 h2
  simp [isSignV4ReqAuthenticated, h1, h2]

/-- Witness for C10 at a bearer-token request. -/
theorem isSignV4ReqAuthenticated_access_denied_witness :
    isRequestSignatureV4 reqBearer = false ∧
    isRequestPresignedSignatureV4 reqBearer = false ∧
    isSignV4ReqAuthenticated signOk reqBearer =
      (false, ErrorCode.AccessDenied) :=
  ⟨by decide, by decide,
   isSignV4ReqAuthenticated_access_denied signOk reqBearer
     (by decide) (by decide)⟩

end MinioAuth

